import Mathlib

/-!
Verification of the chat-relay bot core against its design description.

The definitions below shallowly embed the Python sources:
  - `bot/utils/message_utils.py` (token-budget trimming of message lists),
  - `bot/handlers/message_handler.py` (per-chat bounded history, the
    sent-message ring, admin commands, summary flow, response routing,
    image download, outbound-send bookkeeping).

Machine conventions: Python ints are `Int`/`Nat`; Python strings are
`String` (with character-list helpers mirroring `str.strip` and
`str.startswith`, since those are the only string primitives the code
uses in a way that matters); a Python call that may raise is an
`Except`-valued parameter; side effects (messages sent to the chat of
origin, to the requester, to the operational "service" channel) are
collected into explicit effect records.
-/

/-- A stored context message: the dicts
`{"role": ..., "content": ...}` appended to `chat_queues` in
`message_handler.py`. -/
structure ContextMessage where
  role : String
  content : String
deriving DecidableEq, Repr

/-- Sum of a per-message cost over a message list (the running
`total_tokens` / `total_chars` accumulated by `limit_messages_by_tokens`). -/
def totalCost (cost : ContextMessage → ℕ) : List ContextMessage → ℕ
  | [] => 0
  | m :: rest => cost m + totalCost cost rest

/-- The greedy accumulation loop of `limit_messages_by_tokens`
(`message_utils.py` lines 36-44 and 54-60): walk the already-reversed
message list (newest first) with running total `total`; stop at the first
message whose cost would push the total over `budget`
(`if total_tokens + len(tokens) > token_limit: break`). -/
def trimRev (cost : ContextMessage → ℕ) (budget : ℤ) : ℕ → List ContextMessage → List ContextMessage
  | _, [] => []
  | total, m :: rest =>
    if budget < (total : ℤ) + cost m then []
    else m :: trimRev cost budget (total + cost m) rest

/-- One strategy branch of `limit_messages_by_tokens`
(`message_utils.py` lines 24-46): empty input returns empty
(`if not messages: return []`); otherwise iterate over
`reversed(messages)` inserting kept messages at the front, which is the
reverse of the greedy walk over the reversed list. `cost` stands for the
per-message cost of the strategy in use (for the primary strategy,
`len(encoding.encode(content))`). -/
def limitMessagesByTokensWith (cost : ContextMessage → ℕ) (messages : List ContextMessage)
    (budget : ℤ) : List ContextMessage :=
  if messages.isEmpty then [] else (trimRev cost budget 0 messages.reverse).reverse

/-- Per-message cost used by the fallback branch of
`limit_messages_by_tokens` (lines 48-62): the raw character count
`len(content)` of the message content. -/
def fallbackCharCost (m : ContextMessage) : ℕ := m.content.length

/-- The fallback branch of `limit_messages_by_tokens` (lines 48-62):
`char_limit = token_limit * 4`, then the same greedy walk comparing
`total_chars + len(content) > char_limit`. -/
def limitMessagesFallback (messages : List ContextMessage) (tokenLimit : ℤ) : List ContextMessage :=
  limitMessagesByTokensWith fallbackCharCost messages (tokenLimit * 4)

/-- `limit_messages_by_tokens` with its strategy selection: the `try`
block uses the primary tokenizer when it is available and raises nothing
(modelled as `some cost`); if `tiktoken` is unavailable or raises at any
point, the whole primary attempt is abandoned and the `except` block
recomputes the result from scratch with the character-count fallback, so
a single call never mixes the two strategies. -/
def limit_messages_by_tokens (primary : Option (ContextMessage → ℕ))
    (messages : List ContextMessage) (tokenLimit : ℤ) : List ContextMessage :=
  match primary with
  | some cost => limitMessagesByTokensWith cost messages tokenLimit
  | none => limitMessagesFallback messages tokenLimit

/-- The fallback cost the design description ascribes to the trimmer:
`len(content) / 4` rounded down, per message.  (Written from the spec
text, for comparison with `fallbackCharCost`; the code instead compares
raw character counts against `token_limit * 4`.) -/
def specFallbackCost (m : ContextMessage) : ℕ := m.content.length / 4

/-- `collections.deque(maxlen := n)` append: when the deque is full the
oldest (leftmost) entry is discarded.  Both `chat_queues[chat_id]` and
`sent_message_ids` are constructed with `maxlen=100`
(`message_handler.py` lines 18 and 33). -/
def dequeAppend (maxlen : ℕ) (l : List α) (x : α) : List α :=
  if l.length < maxlen then l ++ [x] else l.tail ++ [x]

/-- Append to a per-chat history queue (`self.chat_queues[chat_id].append(...)`,
capacity 100). -/
def chatQueueAppend (l : List ContextMessage) (m : ContextMessage) : List ContextMessage :=
  dequeAppend 100 l m

/-- Append to the ring of outbound message ids
(`self.sent_message_ids.append(sent_message.id)`, capacity 100). -/
def sentRingAppend (l : List ℕ) (i : ℕ) : List ℕ :=
  dequeAppend 100 l i

/-- `deque.clear()` as invoked by the `!забудь все` admin command. -/
def clearQueue (_l : List ContextMessage) : List ContextMessage := []

/-- Feedback message chosen by the `!вероятность` branch of
`_handle_admin_commands` (lines 188-201): the confirmation, the
out-of-range rejection, or the bad-format rejection. -/
inductive ProbFeedback where
  | set : ProbFeedback
  | outOfRange : ProbFeedback
  | badFormat : ProbFeedback
deriving DecidableEq, Repr

/-- The `!вероятность` branch of `_handle_admin_commands`:
`arg` is the parsed numeric argument (`none` when `split(" ")[1]` raises
`IndexError` or `float(...)` raises `ValueError`); on success the code
sets `probability = float(arg) / 100` and stores it only when
`0 <= probability <= 1`, otherwise it leaves `message_probability`
untouched and sends feedback to the service chat. -/
def handleProbabilityCommand (arg : Option ℚ) (current : ℚ) : ℚ × ProbFeedback :=
  match arg with
  | none => (current, ProbFeedback.badFormat)
  | some v =>
    let probability := v / 100
    if 0 ≤ probability ∧ probability ≤ 1 then (probability, ProbFeedback.set)
    else (current, ProbFeedback.outOfRange)

/-- Routing outcome for a text message in `_handle_text_message`
(lines 451-468): generate normally, generate with the random
(self-reflection) prompt, or stay silent. -/
inductive ResponseDecision where
  | respond : ResponseDecision
  | respondRandom : ResponseDecision
  | noResponse : ResponseDecision
deriving DecidableEq, Repr

/-- `_should_respond_to_message` (lines 470-478): replying to a tracked
outbound id returns `True` immediately; otherwise fall back to the
keyword check (abstracted here as the boolean `keywordHit`, the value of
`any(keyword in message_lower for keyword in self.config.keywords)`). -/
def shouldRespondToMessage (replyToMsgId : Option ℕ) (sentMessageIds : List ℕ)
    (keywordHit : Bool) : Bool :=
  match replyToMsgId with
  | some mid => if mid ∈ sentMessageIds then true else keywordHit
  | none => keywordHit

/-- `_should_respond_randomly` (lines 480-486): a uniform draw below the
current probability, and strictly more than 5 messages in this chat's
queue. -/
def shouldRespondRandomly (randomDraw messageProbability : ℚ) (queueLength : ℕ) : Bool :=
  decide (randomDraw < messageProbability) && decide (5 < queueLength)

/-- The decision structure of `_handle_text_message` (lines 459-468):
positive chat ids are private chats and always respond; group chats
first consult `_should_respond_to_message`, then
`_should_respond_randomly`. -/
def handleTextMessageRouting (chatId : ℤ) (replyToMsgId : Option ℕ) (sentMessageIds : List ℕ)
    (keywordHit : Bool) (randomDraw messageProbability : ℚ) (queueLength : ℕ) :
    ResponseDecision :=
  if 0 < chatId then ResponseDecision.respond
  else if shouldRespondToMessage replyToMsgId sentMessageIds keywordHit then
    ResponseDecision.respond
  else if shouldRespondRandomly randomDraw messageProbability queueLength then
    ResponseDecision.respondRandom
  else ResponseDecision.noResponse

/-- The in-memory state touched by `_send_response`: this chat's history
queue and the outbound-id ring. -/
structure ChatState where
  history : List ContextMessage
  sentMessageIds : List ℕ
deriving DecidableEq, Repr

/-- Messages emitted while handling one generation attempt: to the chat
the inbound event came from, and to the operational (service) channel. -/
structure SendEffects where
  toOriginChat : List String
  toServiceChat : List String
deriving DecidableEq, Repr

/-- `_send_error_to_service` (lines 576-584): formats the diagnostic and
delivers it to `config.service_chat_id`. -/
def sendErrorToService (errorMsg context : String) : String :=
  if context = "" then "❌ **Ошибка бота:**\n" ++ errorMsg
  else "❌ **Ошибка бота:**\n" ++ errorMsg ++ "\n📍 **Контекст:** " ++ context

/-- `_send_error_response` (lines 539-543): the body is `pass` — it
sends nothing anywhere. -/
def sendErrorResponse (_message : String) : SendEffects :=
  SendEffects.mk [] []

/-- `_send_response` (lines 523-537): `event.respond(response)` either
succeeds with the outbound message id or raises.  On success the id is
appended to the ring and the assistant message to the history; on
failure the state is untouched and a diagnostic goes to the service
chat. -/
def sendResponse (respondResult : Except String ℕ) (response : String) (chatId : ℤ)
    (st : ChatState) : ChatState × SendEffects :=
  match respondResult with
  | Except.ok sentId =>
    (ChatState.mk (chatQueueAppend st.history (ContextMessage.mk "assistant" response))
      (sentRingAppend st.sentMessageIds sentId),
     SendEffects.mk [response] [])
  | Except.error e =>
    (st, SendEffects.mk []
      [sendErrorToService ("Ошибка отправки ответа: " ++ e) ("Chat: " ++ toString chatId)])

/-- Outcome of `self.bot.chat_service.generate_response(messages)` as
seen by `_generate_and_send_response`: the returned content, a raised
`ChatServiceError`, or any other raised exception. -/
inductive BackendOutcome where
  | ok (content : String) : BackendOutcome
  | chatServiceError (e : String) : BackendOutcome
  | unexpectedError (e : String) : BackendOutcome
deriving DecidableEq, Repr

/-- The surviving (second) definition of `_generate_and_send_response`
(lines 488-521) — in Python the later `def` overrides the earlier one at
lines 324-357.  A truthy response goes through `_send_response`; an
empty response and both `except` arms call `_send_error_response`, whose
body is `pass`. -/
def generateAndSendResponse (backend : BackendOutcome) (respondResult : Except String ℕ)
    (chatId : ℤ) (st : ChatState) : ChatState × SendEffects :=
  match backend with
  | BackendOutcome.ok response =>
    if response ≠ "" then sendResponse respondResult response chatId st
    else (st, sendErrorResponse "Не удалось сгенерировать ответ")
  | BackendOutcome.chatServiceError _ => (st, sendErrorResponse "Ошибка при генерации ответа")
  | BackendOutcome.unexpectedError _ => (st, sendErrorResponse "Произошла неожиданная ошибка")

/-- One entry of the list built by `_get_chat_history`: sender name and
message text (the `date` field is never read afterwards and is omitted). -/
structure HistoryMessage where
  sender : String
  text : String
deriving DecidableEq, Repr

/-- Python `str.strip()`: drop whitespace from both ends. -/
def pyStrip (s : String) : String :=
  String.mk (((s.data.dropWhile Char.isWhitespace).reverse.dropWhile Char.isWhitespace).reverse)

/-- Python `text.startswith("!")`: the first character is `!`. -/
def pyStartsBang (s : String) : Bool :=
  match s.data with
  | [] => false
  | c :: _ => c = '!'

/-- `_format_messages_for_summary` (lines 391-405): skip entries whose
stripped text is shorter than 3 characters or starts with `!`, render
the rest as `sender: text`, join with newlines. -/
def formatMessagesForSummary (messages : List HistoryMessage) : String :=
  if messages.isEmpty then ""
  else
    String.intercalate "\n" (messages.filterMap (fun msg =>
      let text := pyStrip msg.text
      if text.length < 3 ∨ pyStartsBang text then none
      else some (msg.sender ++ ": " ++ text)))

/-- `_generate_summary` (lines 407-449): the backend call either returns
content or raises; the `except` arm catches everything and returns the
fixed error string, and a falsy (empty) result is replaced by the fixed
no-summary string.  No service-chat message is produced on either arm. -/
def generateSummary (backend : Except String String) : String :=
  match backend with
  | Except.ok summary => if summary ≠ "" then summary else "Не удалось сгенерировать саммари"
  | Except.error _ => "Ошибка при генерации саммари"

/-- Messages emitted by the summary flow: to the requester's private
messages and to the operational (service) channel. -/
structure SummaryEffects where
  toRequester : List String
  toServiceChat : List String
deriving DecidableEq, Repr

/-- The header wrapped around the summary body before it is sent to the
requester (`_generate_and_send_summary`, lines 309-312). -/
def summaryHeader (n : ℕ) : String :=
  "📝 **Саммари по " ++ toString n ++ " сообщениям:**\n\n"

/-- `_generate_and_send_summary` (lines 280-322): empty history and
empty formatted text each produce a requester-facing rejection; in every
other case the result of `_generate_summary` — including its internal
error strings — is wrapped in the summary header and sent to the
requester.  The `except` arm of this function (requester apology plus
service diagnostic) is unreachable for a backend failure, because
`_generate_summary` already caught it. -/
def generateAndSendSummary (historyResult : List HistoryMessage)
    (backend : Except String String) (numMessages : ℕ) : SummaryEffects :=
  if historyResult.isEmpty then
    SummaryEffects.mk ["❌ Не удалось получить сообщения из чата"] []
  else
    let formatted := formatMessagesForSummary historyResult
    if formatted = "" then SummaryEffects.mk ["❌ Нет текстовых сообщений для анализа"] []
    else
      let summary := generateSummary backend
      SummaryEffects.mk [summaryHeader numMessages ++ summary ++ "\n\n"] []

/-- `_download_image` (lines 136-157): a temp file is created with
`delete=False`; `download_media` and the read may each raise, in which
case the `except` arm returns `None` without ever reaching the
`os.unlink` line.  The second component records whether the temp file
was removed before returning. -/
def downloadImage (downloadResult : Except String Unit)
    (readResult : Except String (List ℕ)) : Option (List ℕ) × Bool :=
  match downloadResult with
  | Except.error _ => (none, false)
  | Except.ok _ =>
    match readResult with
    | Except.error _ => (none, false)
    | Except.ok imageData => (some imageData, true)

/-- `sender_username` as computed in `handle_message` (line 25):
`f"@{sender.username}" if sender.username else "Unknown"` — both a
missing and an empty username are falsy. -/
def senderUsernameOf (username : Option String) : String :=
  match username with
  | some u => if u = "" then "Unknown" else "@" ++ u
  | none => "Unknown"

/-- The formatted content appended for a plain text message
(`_handle_text_message`, line 453). -/
def formatTextMessage (senderUsername messageText : String) : String :=
  senderUsername ++ ": " ++ messageText

/-- The formatted content appended after a successful image analysis
(`_handle_media_message`, line 96). -/
def formatImageMessage (senderUsername messageText imageDescription : String) : String :=
  senderUsername ++ ": " ++
    ("[Изображение] " ++ messageText ++ "\nОписание изображения: " ++ imageDescription)

/-- The formatted content appended when the image download failed
(`_handle_media_message`, line 77). -/
def formatImageDownloadFailure (senderUsername messageText : String) : String :=
  senderUsername ++ ": " ++ ("[Изображение - не удалось обработать] " ++ messageText)

/-- The formatted content appended when the image analysis raised
(`_handle_media_message`, line 113). -/
def formatImageAnalysisFailure (senderUsername messageText : String) : String :=
  senderUsername ++ ": " ++ ("[Изображение - ошибка анализа] " ++ messageText)

/-- The formatted content appended for non-image media
(`_handle_media_message`, line 125). -/
def formatMediaMessage (senderUsername messageText : String) : String :=
  senderUsername ++ ": " ++ ("[Медиа файл] " ++ messageText)

/-- Every history append with role `"user"` stores such a record. -/
def storedUserMessage (content : String) : ContextMessage :=
  ContextMessage.mk "user" content

/-! ## Helper lemmas about the greedy trim loop -/

theorem totalCost_append (cost : ContextMessage → ℕ) (l₁ l₂ : List ContextMessage) :
    totalCost cost (l₁ ++ l₂) = totalCost cost l₁ + totalCost cost l₂ := by
  induction l₁ with
  | nil => simp [totalCost]
  | cons m rest ih => simp [totalCost, ih]; ring

theorem totalCost_reverse (cost : ContextMessage → ℕ) (l : List ContextMessage) :
    totalCost cost l.reverse = totalCost cost l := by
  induction l with
  | nil => rfl
  | cons m rest ih => simp [totalCost, totalCost_append, ih]; ring

theorem trimRev_prefix (cost : ContextMessage → ℕ) (budget : ℤ) :
    ∀ (l : List ContextMessage) (t : ℕ), trimRev cost budget t l <+: l := by
  intro l
  induction l with
  | nil => intro t; simp [trimRev]
  | cons m rest ih =>
    intro t
    by_cases h : budget < (t : ℤ) + cost m
    · simp [trimRev, h]
    · simpa [trimRev, h] using ih (t + cost m)

theorem trimRev_cost (cost : ContextMessage → ℕ) (budget : ℤ) :
    ∀ (l : List ContextMessage) (t : ℕ), (t : ℤ) ≤ budget →
      (t : ℤ) + totalCost cost (trimRev cost budget t l) ≤ budget := by
  intro l
  induction l with
  | nil => intro t ht; simpa [trimRev, totalCost] using ht
  | cons m rest ih =>
    intro t ht
    by_cases h : budget < (t : ℤ) + cost m
    · simpa [trimRev, h, totalCost] using ht
    · push_neg at h
      have := ih (t + cost m) (by push_cast; linarith)
      simp only [trimRev, if_neg (not_lt.mpr h), totalCost]
      push_cast at this ⊢
      linarith

theorem trimRev_maximal (cost : ContextMessage → ℕ) (budget : ℤ) :
    ∀ (l : List ContextMessage) (t : ℕ), trimRev cost budget t l ≠ l →
      ∃ m, (trimRev cost budget t l ++ [m]) <+: l ∧
        budget < (t : ℤ) + totalCost cost (trimRev cost budget t l) + cost m := by
  intro l
  induction l with
  | nil => intro t hne; simp [trimRev] at hne
  | cons m rest ih =>
    intro t hne
    by_cases h : budget < (t : ℤ) + cost m
    · refine ⟨m, ?_, ?_⟩
      · simp [trimRev, h]
      · simp only [trimRev, if_pos h, totalCost]
        push_cast
        linarith
    · push_neg at h
      have hrec : trimRev cost budget (t + cost m) rest ≠ rest := by
        intro heq
        apply hne
        simp [trimRev, if_neg (not_lt.mpr h), heq]
      obtain ⟨m', hpre, hcost⟩ := ih (t + cost m) hrec
      refine ⟨m', ?_, ?_⟩
      · simp only [trimRev, if_neg (not_lt.mpr h), List.cons_append]
        obtain ⟨tl, htl⟩ := hpre
        refine ⟨tl, ?_⟩
        simp only [List.cons_append, List.append_assoc] at htl ⊢
        rw [htl]
      · simp only [trimRev, if_neg (not_lt.mpr h), totalCost]
        push_cast at hcost ⊢
        linarith

theorem limitMessagesByTokensWith_spec (cost : ContextMessage → ℕ)
    (messages : List ContextMessage) (budget : ℤ) (hb : 0 ≤ budget) :
    limitMessagesByTokensWith cost messages budget <:+ messages ∧
    (totalCost cost (limitMessagesByTokensWith cost messages budget) : ℤ) ≤ budget ∧
    (limitMessagesByTokensWith cost messages budget ≠ messages →
      ∃ m, (m :: limitMessagesByTokensWith cost messages budget) <:+ messages ∧
        budget < cost m + totalCost cost (limitMessagesByTokensWith cost messages budget)) := by
  by_cases hempty : messages.isEmpty
  · have hm : messages = [] := List.isEmpty_iff.mp hempty
    subst hm
    refine ⟨List.nil_suffix, by simpa [limitMessagesByTokensWith, totalCost] using hb, ?_⟩
    intro hne
    exact absurd (by simp [limitMessagesByTokensWith]) hne
  · have hdef : limitMessagesByTokensWith cost messages budget =
        (trimRev cost budget 0 messages.reverse).reverse := by
      simp [limitMessagesByTokensWith, hempty]
    refine ⟨?_, ?_, ?_⟩
    · rw [hdef]
      apply List.reverse_prefix.mp
      rw [List.reverse_reverse]
      exact trimRev_prefix cost budget messages.reverse 0
    · rw [hdef, totalCost_reverse]
      have h0 : ((0 : ℕ) : ℤ) ≤ budget := by exact_mod_cast hb
      have := trimRev_cost cost budget messages.reverse 0 h0
      simpa using this
    · intro hne
      have hne' : trimRev cost budget 0 messages.reverse ≠ messages.reverse := by
        intro heq
        apply hne
        rw [hdef, heq, List.reverse_reverse]
      obtain ⟨m, hpre, hcost⟩ := trimRev_maximal cost budget messages.reverse 0 hne'
      refine ⟨m, ?_, ?_⟩
      · apply List.reverse_prefix.mp
        have hrw : (m :: limitMessagesByTokensWith cost messages budget).reverse
            = trimRev cost budget 0 messages.reverse ++ [m] := by
          rw [hdef]
          simp [List.reverse_cons, List.reverse_reverse]
        rw [hrw]
        exact hpre
      · rw [hdef, totalCost_reverse]
        push_cast at hcost ⊢
        linarith

theorem dequeAppend_full {α : Type} (l : List α) (x : α) (h : l.length = 100) :
    (dequeAppend 100 l x).length = 100 ∧ dequeAppend 100 l x = l.tail ++ [x] := by
  have hnot : ¬ l.length < 100 := by omega
  refine ⟨?_, by simp [dequeAppend, hnot]⟩
  simp only [dequeAppend, if_neg hnot, List.length_append, List.length_tail,
    List.length_singleton]
  omega

theorem dequeAppend_le {α : Type} (l : List α) (x : α) (h : l.length ≤ 100) :
    (dequeAppend 100 l x).length ≤ 100 := by
  by_cases hlt : l.length < 100
  · simp only [dequeAppend, if_pos hlt, List.length_append, List.length_singleton]
    omega
  · simp only [dequeAppend, if_neg hlt, List.length_append, List.length_tail,
      List.length_singleton]
    omega

/-! ## Claim theorems -/

/-- Claim C1 (amended to budgets ≥ 0; for negative budgets the empty
result has cost 0 > budget, see the counterexample): for every cost
strategy, message list and budget ≥ 0, `limit_messages_by_tokens`
returns a contiguous suffix of the input whose cumulative estimated cost
is at most the budget, and the suffix is maximal — if it is not the
whole input, prepending the next older message pushes the cost over the
budget; the empty list maps to the empty list for every integer
budget. -/
theorem trim_contract (cost : ContextMessage → ℕ) (messages : List ContextMessage)
    (budget : ℤ) (hb : 0 ≤ budget) :
    (limitMessagesByTokensWith cost messages budget <:+ messages ∧
     (totalCost cost (limitMessagesByTokensWith cost messages budget) : ℤ) ≤ budget ∧
     (limitMessagesByTokensWith cost messages budget ≠ messages →
       ∃ m, (m :: limitMessagesByTokensWith cost messages budget) <:+ messages ∧
         budget < cost m + totalCost cost (limitMessagesByTokensWith cost messages budget))) ∧
    ∀ b : ℤ, limitMessagesByTokensWith cost [] b = [] :=
  ⟨limitMessagesByTokensWith_spec cost messages budget hb, fun _ => rfl⟩

/-- Claim C1, counterexample to the unrestricted claim: at budget `-1`
the trimmer returns the empty suffix, whose cumulative cost 0 is not
`≤ -1`, so "for every integer budget the result's cost is ≤ budget" is
false as stated. -/
theorem trim_negative_budget_counterexample :
    limitMessagesByTokensWith fallbackCharCost [ContextMessage.mk "user" "abc"] (-1) = [] ∧
    ¬ ((totalCost fallbackCharCost
        (limitMessagesByTokensWith fallbackCharCost
          [ContextMessage.mk "user" "abc"] (-1)) : ℤ) ≤ -1) := by
  constructor
  · decide
  · decide

/-- Witness for `trim_contract` at a concrete input. -/
theorem trim_contract_witness :
    (0 : ℤ) ≤ 3 ∧
    ((limitMessagesByTokensWith fallbackCharCost
        [ContextMessage.mk "user" "hi", ContextMessage.mk "assistant" "yo"] 3 <:+
        [ContextMessage.mk "user" "hi", ContextMessage.mk "assistant" "yo"] ∧
      (totalCost fallbackCharCost (limitMessagesByTokensWith fallbackCharCost
        [ContextMessage.mk "user" "hi", ContextMessage.mk "assistant" "yo"] 3) : ℤ) ≤ 3 ∧
      (limitMessagesByTokensWith fallbackCharCost
          [ContextMessage.mk "user" "hi", ContextMessage.mk "assistant" "yo"] 3 ≠
          [ContextMessage.mk "user" "hi", ContextMessage.mk "assistant" "yo"] →
        ∃ m, (m :: limitMessagesByTokensWith fallbackCharCost
            [ContextMessage.mk "user" "hi", ContextMessage.mk "assistant" "yo"] 3) <:+
            [ContextMessage.mk "user" "hi", ContextMessage.mk "assistant" "yo"] ∧
          (3 : ℤ) < fallbackCharCost m + totalCost fallbackCharCost
            (limitMessagesByTokensWith fallbackCharCost
              [ContextMessage.mk "user" "hi", ContextMessage.mk "assistant" "yo"] 3))) ∧
     ∀ b : ℤ, limitMessagesByTokensWith fallbackCharCost [] b = []) :=
  ⟨by decide,
   trim_contract fallbackCharCost
     [ContextMessage.mk "user" "hi", ContextMessage.mk "assistant" "yo"] 3 (by decide)⟩

/-- Claim C3 (amended): when the primary tokenizer strategy is
unavailable or raises, the whole call uses the character-count fallback
— but the fallback cost the code applies is the raw character count of
each message measured against `token_limit * 4`, not the per-message
cost `len(content) / 4` the description states; under that cost the
returned suffix is again maximal. -/
theorem fallback_trim_contract (messages : List ContextMessage) (budget : ℤ)
    (hb : 0 ≤ budget) :
    limit_messages_by_tokens none messages budget = limitMessagesFallback messages budget ∧
    (limitMessagesFallback messages budget <:+ messages ∧
     (totalCost fallbackCharCost (limitMessagesFallback messages budget) : ℤ) ≤ budget * 4 ∧
     (limitMessagesFallback messages budget ≠ messages →
       ∃ m, (m :: limitMessagesFallback messages budget) <:+ messages ∧
         budget * 4 < fallbackCharCost m +
           totalCost fallbackCharCost (limitMessagesFallback messages budget))) :=
  ⟨rfl, limitMessagesByTokensWith_spec fallbackCharCost messages (budget * 4)
    (by linarith)⟩

/-- Claim C3, counterexample: with the fallback strategy, one message of
content length 3 and budget 0, the code returns the empty list even
though the full input has claimed fallback cost `3 / 4 = 0 ≤ 0` — so the
output is not the maximal suffix under the claimed per-message
`len(content) / 4` cost. -/
theorem fallback_cost_model_counterexample :
    limit_messages_by_tokens none [ContextMessage.mk "user" "abc"] 0 = [] ∧
    totalCost specFallbackCost [ContextMessage.mk "user" "abc"] ≤ 0 ∧
    [ContextMessage.mk "user" "abc"] ≠ ([] : List ContextMessage) := by
  refine ⟨by decide, by decide, by decide⟩

/-- Witness for `fallback_trim_contract` at a concrete input. -/
theorem fallback_trim_contract_witness :
    (0 : ℤ) ≤ 1 ∧
    (limit_messages_by_tokens none [ContextMessage.mk "user" "abcdefgh"] 1 =
        limitMessagesFallback [ContextMessage.mk "user" "abcdefgh"] 1 ∧
     (limitMessagesFallback [ContextMessage.mk "user" "abcdefgh"] 1 <:+
        [ContextMessage.mk "user" "abcdefgh"] ∧
      (totalCost fallbackCharCost
        (limitMessagesFallback [ContextMessage.mk "user" "abcdefgh"] 1) : ℤ) ≤ 1 * 4 ∧
      (limitMessagesFallback [ContextMessage.mk "user" "abcdefgh"] 1 ≠
          [ContextMessage.mk "user" "abcdefgh"] →
        ∃ m, (m :: limitMessagesFallback [ContextMessage.mk "user" "abcdefgh"] 1) <:+
            [ContextMessage.mk "user" "abcdefgh"] ∧
          (1 : ℤ) * 4 < fallbackCharCost m + totalCost fallbackCharCost
            (limitMessagesFallback [ContextMessage.mk "user" "abcdefgh"] 1)))) :=
  ⟨by decide, fallback_trim_contract [ContextMessage.mk "user" "abcdefgh"] 1 (by decide)⟩

/-- Claim C4: appending to a chat history holding 100 messages keeps the
length at 100 and evicts exactly the oldest entry, leaving the other 99
in order; the sent-message ring behaves identically at capacity; no
append or clear ever pushes either collection past 100 entries. -/
theorem bounded_collections_spec :
    (∀ (l : List ContextMessage) (m : ContextMessage), l.length = 100 →
      (chatQueueAppend l m).length = 100 ∧ chatQueueAppend l m = l.tail ++ [m]) ∧
    (∀ (l : List ℕ) (i : ℕ), l.length = 100 →
      (sentRingAppend l i).length = 100 ∧ sentRingAppend l i = l.tail ++ [i]) ∧
    (∀ (l : List ContextMessage) (m : ContextMessage), l.length ≤ 100 →
      (chatQueueAppend l m).length ≤ 100) ∧
    (∀ (l : List ℕ) (i : ℕ), l.length ≤ 100 → (sentRingAppend l i).length ≤ 100) ∧
    (∀ l : List ContextMessage, (clearQueue l).length ≤ 100) :=
  ⟨fun l m h => dequeAppend_full l m h,
   fun l i h => dequeAppend_full l i h,
   fun l m h => dequeAppend_le l m h,
   fun l i h => dequeAppend_le l i h,
   fun _ => by simp [clearQueue]⟩

/-- Witness for `bounded_collections_spec` at a concrete full queue. -/
theorem bounded_collections_spec_witness :
    (List.replicate 100 (ContextMessage.mk "user" "x")).length = 100 ∧
    ((chatQueueAppend (List.replicate 100 (ContextMessage.mk "user" "x"))
        (ContextMessage.mk "user" "y")).length = 100 ∧
      chatQueueAppend (List.replicate 100 (ContextMessage.mk "user" "x"))
        (ContextMessage.mk "user" "y") =
      (List.replicate 100 (ContextMessage.mk "user" "x")).tail ++
        [ContextMessage.mk "user" "y"]) :=
  ⟨by simp,
   bounded_collections_spec.1 (List.replicate 100 (ContextMessage.mk "user" "x"))
     (ContextMessage.mk "user" "y") (by simp)⟩

/-- Claim C5: an in-range argument `v ∈ [0,100]` to the `!вероятность`
command sets the probability to `v / 100` (so `0` yields `0` and `100`
yields `1`); an out-of-range or unparsable argument produces feedback and
leaves the stored probability exactly unchanged. -/
theorem probability_command_spec (v current : ℚ) :
    (0 ≤ v → v ≤ 100 →
      handleProbabilityCommand (some v) current = (v / 100, ProbFeedback.set)) ∧
    handleProbabilityCommand (some 0) current = (0, ProbFeedback.set) ∧
    handleProbabilityCommand (some 100) current = (1, ProbFeedback.set) ∧
    ((v < 0 ∨ 100 < v) →
      handleProbabilityCommand (some v) current = (current, ProbFeedback.outOfRange)) ∧
    handleProbabilityCommand none current = (current, ProbFeedback.badFormat) := by
  refine ⟨?_, ?_, ?_, ?_, rfl⟩
  · intro h0 h100
    have hc : 0 ≤ v / 100 ∧ v / 100 ≤ 1 :=
      ⟨div_nonneg h0 (by norm_num), (div_le_one (by norm_num : (0:ℚ) < 100)).mpr h100⟩
    simp [handleProbabilityCommand, hc]
  · norm_num [handleProbabilityCommand]
  · norm_num [handleProbabilityCommand]
  · intro hv
    have hcond : ¬ (0 ≤ v / 100 ∧ v / 100 ≤ 1) := by
      rcases hv with h | h
      · rintro ⟨ha, _⟩
        have : v / 100 < 0 := div_neg_of_neg_of_pos h (by norm_num)
        linarith
      · rintro ⟨_, hb⟩
        have : 1 < v / 100 := (one_lt_div (by norm_num : (0:ℚ) < 100)).mpr h
        linarith
    simp [handleProbabilityCommand, hcond]

/-- Witness for `probability_command_spec` at the in-range argument 0. -/
theorem probability_command_spec_witness :
    (0:ℚ) ≤ 0 ∧ (0:ℚ) ≤ 100 ∧
    handleProbabilityCommand (some 0) (3 : ℚ) = (0 / 100, ProbFeedback.set) :=
  ⟨le_refl 0, by simp, (probability_command_spec 0 3).1 (le_refl 0) (by simp)⟩

/-- Claim C7: in a group chat, a reply to a message id present in the
sent-message ring triggers generation deterministically — for every
random draw, every probability value, every keyword-check outcome and
every history length. -/
theorem reply_to_bot_trigger (chatId : ℤ) (mid : ℕ) (sentMessageIds : List ℕ)
    (keywordHit : Bool) (randomDraw messageProbability : ℚ) (queueLength : ℕ)
    (hgroup : ¬ 0 < chatId) (hmem : mid ∈ sentMessageIds) :
    handleTextMessageRouting chatId (some mid) sentMessageIds keywordHit randomDraw
      messageProbability queueLength = ResponseDecision.respond := by
  have hresp : shouldRespondToMessage (some mid) sentMessageIds keywordHit = true := by
    simp [shouldRespondToMessage, hmem]
  simp [handleTextMessageRouting, hgroup, hresp]

/-- Witness for `reply_to_bot_trigger` at a concrete group chat and
tracked id. -/
theorem reply_to_bot_trigger_witness :
    ¬ (0:ℤ) < -1 ∧ 7 ∈ [3, 7] ∧
    handleTextMessageRouting (-1) (some 7) [3, 7] false 0 1 0 = ResponseDecision.respond :=
  ⟨by decide, by decide,
   reply_to_bot_trigger (-1) 7 [3, 7] false 0 1 0 (by decide) (by decide)⟩

/-- Claim C2 (code bug): in the surviving `_generate_and_send_response`,
every failure arm — `ChatServiceError`, any other exception, and an
empty response — routes to `_send_error_response`, whose body is `pass`:
nothing is sent to the originating chat (as claimed) but nothing is sent
to the operational channel either, contradicting the claim and the
code's own comment that all errors go to the service chat. -/
theorem main_path_failure_sends_nothing :
    (∀ (e : String) (respondResult : Except String ℕ) (chatId : ℤ) (st : ChatState),
      generateAndSendResponse (BackendOutcome.chatServiceError e) respondResult chatId st =
        (st, SendEffects.mk [] [])) ∧
    (∀ (e : String) (respondResult : Except String ℕ) (chatId : ℤ) (st : ChatState),
      generateAndSendResponse (BackendOutcome.unexpectedError e) respondResult chatId st =
        (st, SendEffects.mk [] [])) ∧
    (∀ (respondResult : Except String ℕ) (chatId : ℤ) (st : ChatState),
      generateAndSendResponse (BackendOutcome.ok "") respondResult chatId st =
        (st, SendEffects.mk [] [])) :=
  ⟨fun _ _ _ _ => rfl, fun _ _ _ _ => rfl,
   fun _ _ _ => by simp [generateAndSendResponse, sendErrorResponse]⟩

/-- Claim C10: if sending the generated reply raises, the chat state
(history and sent-message ring) is left exactly unchanged, nothing
reaches the originating chat, and a diagnostic goes to the service
channel; on a successful send the outbound id is recorded and the
assistant message appended. -/
theorem send_response_spec (e response : String) (chatId : ℤ) (st : ChatState) (sentId : ℕ) :
    ((sendResponse (Except.error e) response chatId st).1 = st ∧
     (sendResponse (Except.error e) response chatId st).2.toOriginChat = [] ∧
     (sendResponse (Except.error e) response chatId st).2.toServiceChat ≠ []) ∧
    ((sendResponse (Except.ok sentId) response chatId st).1.history =
        chatQueueAppend st.history (ContextMessage.mk "assistant" response) ∧
     (sendResponse (Except.ok sentId) response chatId st).1.sentMessageIds =
        sentRingAppend st.sentMessageIds sentId ∧
     (sendResponse (Except.ok sentId) response chatId st).2.toServiceChat = []) := by
  refine ⟨⟨rfl, rfl, ?_⟩, rfl, rfl, rfl⟩
  simp [sendResponse]

/-- Claim C6 (amended): when the backend call behind a summary request
fails, `_generate_summary` swallows the error and returns the fixed
failure text, which `_generate_and_send_summary` wraps in the normal
summary header and sends to the requester; no diagnostic reaches the
operational channel. -/
theorem summary_backend_failure_spec (messages : List HistoryMessage) (e : String) (n : ℕ)
    (hne : messages.isEmpty = false) (hfmt : formatMessagesForSummary messages ≠ "") :
    generateAndSendSummary messages (Except.error e) n =
      SummaryEffects.mk [summaryHeader n ++ "Ошибка при генерации саммари" ++ "\n\n"] [] := by
  simp [generateAndSendSummary, hne, hfmt, generateSummary]

/-- Witness for `summary_backend_failure_spec` at a concrete history and
request size. -/
theorem summary_backend_failure_spec_witness :
    ([HistoryMessage.mk "@alice" "hello world"] : List HistoryMessage).isEmpty = false ∧
    formatMessagesForSummary [HistoryMessage.mk "@alice" "hello world"] ≠ "" ∧
    generateAndSendSummary [HistoryMessage.mk "@alice" "hello world"] (Except.error "boom") 5 =
      SummaryEffects.mk [summaryHeader 5 ++ "Ошибка при генерации саммари" ++ "\n\n"] [] :=
  ⟨by decide, by decide,
   summary_backend_failure_spec [HistoryMessage.mk "@alice" "hello world"] "boom" 5
     (by decide) (by decide)⟩

/-- Claim C6, counterexample to the claim as stated: with a non-empty
history and a failing backend, the operational channel receives nothing
and the requester receives a message in the normal summary format whose
body is the failure text. -/
theorem summary_backend_failure_counterexample :
    (generateAndSendSummary [HistoryMessage.mk "@alice" "hello world"]
        (Except.error "boom") 5).toServiceChat = [] ∧
    (generateAndSendSummary [HistoryMessage.mk "@alice" "hello world"]
        (Except.error "boom") 5).toRequester =
      ["📝 **Саммари по 5 сообщениям:**\n\nОшибка при генерации саммари\n\n"] := by
  refine ⟨by decide, by decide⟩

/-- Claim C8 (amended): `_download_image` removes the temporary file on
the success path only; when the download or the read raises, the
function returns `None` and the temporary file is not removed. -/
theorem download_image_cleanup (imageData : List ℕ) (ed er : String) :
    downloadImage (Except.ok ()) (Except.ok imageData) = (some imageData, true) ∧
    downloadImage (Except.error ed) (Except.ok imageData) = (none, false) ∧
    downloadImage (Except.error ed) (Except.error er) = (none, false) ∧
    downloadImage (Except.ok ()) (Except.error er) = (none, false) :=
  ⟨rfl, rfl, rfl, rfl⟩

/-- Claim C8, counterexample to the claim as stated: when the download
itself fails, the temporary file is not removed before returning. -/
theorem download_image_leak_counterexample :
    (downloadImage (Except.error "download failed") (Except.ok [])).2 ≠ true := by
  decide

theorem senderUsernameOf_length (username : Option String) :
    1 ≤ (senderUsernameOf username).length := by
  cases username with
  | none => decide
  | some u =>
    by_cases hu : u = ""
    · simp only [senderUsernameOf, if_pos hu]
      decide
    · simp only [senderUsernameOf, if_neg hu, String.length_append]
      have : 1 ≤ ("@" : String).length := by decide
      omega

theorem prefixed_content_ne_empty (su r : String) (h : 1 ≤ su.length) :
    su ++ ": " ++ r ≠ "" := by
  intro hcontra
  have hlen := congrArg String.length hcontra
  simp only [String.length_append] at hlen
  have hempty : ("" : String).length = 0 := by decide
  omega

/-- Claim C9: every user-role message stored into a chat's history —
plain text, analyzed image, failed-download image, failed-analysis
image, and non-image media — has content of the form
`<sender identity>: ...`, and is therefore non-empty even when the
inbound message text is the empty string. -/
theorem stored_user_content_spec (username : Option String)
    (messageText imageDescription : String) :
    (storedUserMessage (formatTextMessage (senderUsernameOf username) messageText)).role =
      "user" ∧
    (∃ r, formatTextMessage (senderUsernameOf username) messageText =
      senderUsernameOf username ++ ": " ++ r) ∧
    (∃ r, formatImageMessage (senderUsernameOf username) messageText imageDescription =
      senderUsernameOf username ++ ": " ++ r) ∧
    (∃ r, formatImageDownloadFailure (senderUsernameOf username) messageText =
      senderUsernameOf username ++ ": " ++ r) ∧
    (∃ r, formatImageAnalysisFailure (senderUsernameOf username) messageText =
      senderUsernameOf username ++ ": " ++ r) ∧
    (∃ r, formatMediaMessage (senderUsernameOf username) messageText =
      senderUsernameOf username ++ ": " ++ r) ∧
    formatTextMessage (senderUsernameOf username) messageText ≠ "" ∧
    formatImageMessage (senderUsernameOf username) messageText imageDescription ≠ "" ∧
    formatImageDownloadFailure (senderUsernameOf username) messageText ≠ "" ∧
    formatImageAnalysisFailure (senderUsernameOf username) messageText ≠ "" ∧
    formatMediaMessage (senderUsernameOf username) messageText ≠ "" := by
  have hlen := senderUsernameOf_length username
  refine ⟨rfl, ⟨messageText, rfl⟩, ⟨_, rfl⟩, ⟨_, rfl⟩, ⟨_, rfl⟩, ⟨_, rfl⟩,
    ?_, ?_, ?_, ?_, ?_⟩
  · exact prefixed_content_ne_empty _ _ hlen
  · exact prefixed_content_ne_empty _ _ hlen
  · exact prefixed_content_ne_empty _ _ hlen
  · exact prefixed_content_ne_empty _ _ hlen
  · exact prefixed_content_ne_empty _ _ hlen
